import Mathlib

/-!
Verification of the retrieval-and-generation pipeline of a RAG textbook
backend. Each service of the backend (`context_builder.py`,
`response_generator.py`, `retriever_service.py`, `embedding_service.py`,
`indexer_service.py`, `content_parser.py`) is shallowly embedded below as
executable Lean definitions; external collaborators (the chat model, the
embedding provider, the vector store) are modelled as explicit oracle
parameters. Floating-point scores are modelled as rationals; Python string
lengths (code-point counts) are Lean `String.length`.
-/

set_option autoImplicit false

/-! ### Data model: retrieved chunks (retriever_service.py) -/

/-- A retrieved content chunk with metadata and score
(`RetrievedChunk` in `retriever_service.py`). -/
structure RetrievedChunk where
  id : String
  content : String
  chapter_id : String
  title : String
  section_title : String
  page_url : String
  position : Nat
  score : ℚ
deriving DecidableEq

/-- Result of a retrieval operation (`RetrievalResult` in
`retriever_service.py`). -/
structure RetrievalResult where
  query : String
  processed_query : String
  chunks : List RetrievedChunk
  total_found : Nat
deriving DecidableEq

/-! ### Context builder (context_builder.py) -/

/-- Result of context building (`BuiltContext` in `context_builder.py`). -/
structure BuiltContext where
  context_text : String
  chunks_used : List RetrievedChunk
  total_tokens_estimate : Nat
  truncated : Bool
deriving DecidableEq

/-- Configuration of a `ContextBuilder` instance: the two constructor
arguments `max_tokens` and `max_chunks`. -/
structure ContextBuilder where
  max_tokens : Nat
  max_chunks : Nat
deriving DecidableEq

/-- Class defaults `DEFAULT_MAX_TOKENS = 4000`, `DEFAULT_MAX_CHUNKS = 10`. -/
def ContextBuilder.default : ContextBuilder := ⟨4000, 10⟩

/-- Token estimate: `len(text) // CHARS_PER_TOKEN_ESTIMATE` with
`CHARS_PER_TOKEN_ESTIMATE = 4` (`ContextBuilder._estimate_tokens`). -/
def estimateTokens (text : String) : Nat :=
  text.length / 4

/-- Format one chunk for the context
(`ContextBuilder._format_chunk`): the index is 1-based for display. -/
def formatChunk (chunk : RetrievedChunk) (index : Nat) : String :=
  "[Source " ++ toString index ++ ": " ++ chunk.title ++ " - "
    ++ chunk.section_title ++ "]\n" ++ chunk.content ++ "\n"

/-- The fixed header line prepended before retrieved content in
`ContextBuilder.build_context`. -/
def contextHeader : String := "Relevant content from the textbook:\n\n"

/-- The `[User Selected Text]` block prepended when `selected_text` is
truthy, plus the header: the token overhead counted into `current_tokens`
before any chunk is considered in `ContextBuilder.build_context`. -/
def selectedParts (selected_text : Option String) : List String :=
  match selected_text with
  | none => []
  | some st =>
      if st = "" then []
      else ["[User Selected Text]\n" ++ st ++ "\n\n"]

/-- The chunk loop of `ContextBuilder.build_context` (lines 121-136):
walks the chunks, breaking with `truncated = true` as soon as the chunk
count cap is reached or adding the next formatted chunk would push
`current_tokens` over `max_tokens`. Returns the formatted parts, the
chunks used, the final token estimate and the truncated flag. -/
def buildLoop (cb : ContextBuilder) :
    List RetrievedChunk → Nat → Nat →
      List String × List RetrievedChunk × Nat × Bool
  | [], _, curTokens => ([], [], curTokens, false)
  | chunk :: rest, usedCount, curTokens =>
      if cb.max_chunks ≤ usedCount then
        ([], [], curTokens, true)
      else
        let formatted := formatChunk chunk (usedCount + 1)
        let chunkTokens := estimateTokens formatted
        if cb.max_tokens < curTokens + chunkTokens then
          ([], [], curTokens, true)
        else
          let r := buildLoop cb rest (usedCount + 1) (curTokens + chunkTokens)
          (formatted :: r.1, chunk :: r.2.1, r.2.2.1, r.2.2.2)

/-- Token overhead of the selected-text block plus header, counted into
`current_tokens` by `build_context` before the chunk loop starts. -/
def baseOverhead (selected_text : Option String) : Nat :=
  (selectedParts selected_text).foldl (fun acc s => acc + estimateTokens s) 0
    + estimateTokens contextHeader

/-- `ContextBuilder.build_context`: empty chunk list returns the empty
context immediately (before any selected-text handling); otherwise the
selected-text block (if truthy) and the fixed header are added first and
their token estimates counted, then chunks are added in order under the
two caps. `context_text` is the `"\n"`-join of the collected parts. -/
def build_context (cb : ContextBuilder) (chunks : List RetrievedChunk)
    (selected_text : Option String) : BuiltContext :=
  if chunks = [] then
    { context_text := ""
      chunks_used := []
      total_tokens_estimate := 0
      truncated := false }
  else
    let r := buildLoop cb chunks 0 (baseOverhead selected_text)
    { context_text :=
        String.intercalate "\n" (selectedParts selected_text ++ contextHeader :: r.1)
      chunks_used := r.2.1
      total_tokens_estimate := r.2.2.1
      truncated := r.2.2.2 }

/-- `ContextBuilder.build_context_with_priority`: a falsy
`priority_chapter_id` (absent or empty string) delegates directly to
`build_context`; otherwise the chunks are stable-partitioned into the
priority chapter's chunks followed by all others. -/
def build_context_with_priority (cb : ContextBuilder)
    (chunks : List RetrievedChunk) (priority_chapter_id : Option String)
    (selected_text : Option String) : BuiltContext :=
  match priority_chapter_id with
  | none => build_context cb chunks selected_text
  | some p =>
      if p = "" then build_context cb chunks selected_text
      else
        build_context cb
          (chunks.filter (fun c => c.chapter_id = p)
            ++ chunks.filter (fun c => ¬(c.chapter_id = p)))
          selected_text

/-! ### Basic lemmas about the context-builder loop -/

/-- If the running token estimate is within budget, it stays within
budget after the loop. -/
theorem buildLoop_tokens_le (cb : ContextBuilder) :
    ∀ (chunks : List RetrievedChunk) (u t : Nat), t ≤ cb.max_tokens →
      (buildLoop cb chunks u t).2.2.1 ≤ cb.max_tokens := by
  intro chunks
  induction chunks with
  | nil => intro u t ht; simpa [buildLoop] using ht
  | cons c rest ih =>
      intro u t ht
      by_cases hcap : cb.max_chunks ≤ u
      · simpa [buildLoop, hcap] using ht
      · by_cases htok :
          cb.max_tokens < t + estimateTokens (formatChunk c (u + 1))
        · simpa [buildLoop, hcap, htok] using ht
        · have : t + estimateTokens (formatChunk c (u + 1)) ≤ cb.max_tokens :=
            Nat.le_of_not_lt htok
          simpa [buildLoop, hcap, htok] using
            ih (u + 1) (t + estimateTokens (formatChunk c (u + 1))) this

/-- The loop never uses more chunks than `max_chunks` allows beyond the
count already used. -/
theorem buildLoop_count_le (cb : ContextBuilder) :
    ∀ (chunks : List RetrievedChunk) (u t : Nat),
      u + (buildLoop cb chunks u t).2.1.length ≤ max cb.max_chunks u := by
  intro chunks
  induction chunks with
  | nil => intro u t; simp [buildLoop, Nat.le_max_right]
  | cons c rest ih =>
      intro u t
      by_cases hcap : cb.max_chunks ≤ u
      · simp [buildLoop, hcap, Nat.le_max_right]
      · by_cases htok :
          cb.max_tokens < t + estimateTokens (formatChunk c (u + 1))
        · simp [buildLoop, hcap, htok, Nat.le_max_right]
        · have hu : u + 1 ≤ cb.max_chunks := Nat.lt_of_not_le hcap
          have h := ih (u + 1) (t + estimateTokens (formatChunk c (u + 1)))
          have h' : u + 1 +
              (buildLoop cb rest (u + 1)
                (t + estimateTokens (formatChunk c (u + 1)))).2.1.length ≤
              cb.max_chunks := by
            simpa [Nat.max_eq_left hu] using h
          simp only [buildLoop, hcap, htok, if_false, if_neg, ite_false]
          simp only [List.length_cons]
          refine Nat.le_trans ?_ (Nat.le_max_left _ _)
          omega

/-- The loop truncates exactly when it used fewer chunks than it was
given. -/
theorem buildLoop_truncated_iff (cb : ContextBuilder) :
    ∀ (chunks : List RetrievedChunk) (u t : Nat),
      ((buildLoop cb chunks u t).2.2.2 = true ↔
        (buildLoop cb chunks u t).2.1.length < chunks.length) := by
  intro chunks
  induction chunks with
  | nil => intro u t; simp [buildLoop]
  | cons c rest ih =>
      intro u t
      by_cases hcap : cb.max_chunks ≤ u
      · simp [buildLoop, hcap]
      · by_cases htok :
          cb.max_tokens < t + estimateTokens (formatChunk c (u + 1))
        · simp [buildLoop, hcap, htok]
        · have h := ih (u + 1) (t + estimateTokens (formatChunk c (u + 1)))
          simp only [buildLoop, hcap, htok, if_false, ite_false,
            List.length_cons]
          constructor
          · intro htr
            have := h.mp htr
            omega
          · intro hlt
            exact h.mpr (by omega)

/-- The chunks the loop uses form an initial segment of its input. -/
theorem buildLoop_used_take (cb : ContextBuilder) :
    ∀ (chunks : List RetrievedChunk) (u t : Nat),
      ∃ k, (buildLoop cb chunks u t).2.1 = chunks.take k := by
  intro chunks
  induction chunks with
  | nil => intro u t; exact ⟨0, by simp [buildLoop]⟩
  | cons c rest ih =>
      intro u t
      by_cases hcap : cb.max_chunks ≤ u
      · exact ⟨0, by simp [buildLoop, hcap]⟩
      · by_cases htok :
          cb.max_tokens < t + estimateTokens (formatChunk c (u + 1))
        · exact ⟨0, by simp [buildLoop, hcap, htok]⟩
        · obtain ⟨k, hk⟩ := ih (u + 1) (t + estimateTokens (formatChunk c (u + 1)))
          exact ⟨k + 1, by simp [buildLoop, hcap, htok, List.take_succ_cons, hk]⟩

/-- C10: on the empty chunk list, `build_context` returns the empty
context — empty text, no chunks, zero token estimate, not truncated —
regardless of `selected_text` and the configured limits; the
selected-text block and header are omitted entirely. -/
theorem c10_build_context_empty (cb : ContextBuilder)
    (selected_text : Option String) :
    build_context cb [] selected_text =
      { context_text := ""
        chunks_used := []
        total_tokens_estimate := 0
        truncated := false } := by
  rfl

/-! ### C2: the context budget claim -/

/-- A small concrete chunk used to exercise the context builder. -/
def c2Chunk : RetrievedChunk :=
  { id := "c1"
    content := "Robots sense the world."
    chapter_id := "ch1"
    title := "Intro"
    section_title := "Basics"
    page_url := "/intro"
    position := 0
    score := mkRat 9 10 }

/-- C2 counterexample: with `max_tokens = 5` the fixed header alone
(9 estimated tokens) is counted into `current_tokens` but never checked
against `max_tokens`, so `build_context` returns
`total_tokens_estimate = 9 > 5`, refuting the claimed unconditional bound
`total_tokens_estimate ≤ max_tokens`. -/
theorem c2_counterexample :
    ¬((build_context ⟨5, 10⟩ [c2Chunk] none).total_tokens_estimate ≤ 5) := by
  decide

/-- C2 (amended): `len(chunks_used) ≤ max_chunks` always holds, and
`truncated = true` iff fewer than all candidate chunks were included; the
bound `total_tokens_estimate ≤ max_tokens` holds provided the fixed
header plus optional selected-text block overhead fits within
`max_tokens` (it is unconditional only under that proviso, since the
overhead is counted but not capped). -/
theorem c2_amended (cb : ContextBuilder) (chunks : List RetrievedChunk)
    (selected_text : Option String) :
    (baseOverhead selected_text ≤ cb.max_tokens →
      (build_context cb chunks selected_text).total_tokens_estimate ≤ cb.max_tokens) ∧
    (build_context cb chunks selected_text).chunks_used.length ≤ cb.max_chunks ∧
    ((build_context cb chunks selected_text).truncated = true ↔
      (build_context cb chunks selected_text).chunks_used.length < chunks.length) := by
  by_cases h : chunks = []
  · subst h
    simp [build_context]
  · refine ⟨fun hov => ?_, ?_, ?_⟩
    · simpa [build_context, h] using
        buildLoop_tokens_le cb chunks 0 (baseOverhead selected_text) hov
    · have := buildLoop_count_le cb chunks 0 (baseOverhead selected_text)
      simpa [build_context, h] using this
    · simpa [build_context, h] using
        buildLoop_truncated_iff cb chunks 0 (baseOverhead selected_text)

/-- Witness for C2 (amended) at a concrete input. -/
theorem c2_amended_witness :
    baseOverhead none ≤ 4000 ∧
    (build_context ⟨4000, 10⟩ [c2Chunk] none).total_tokens_estimate ≤ 4000 ∧
    (build_context ⟨4000, 10⟩ [c2Chunk] none).chunks_used.length ≤ 10 ∧
    ((build_context ⟨4000, 10⟩ [c2Chunk] none).truncated = true ↔
      (build_context ⟨4000, 10⟩ [c2Chunk] none).chunks_used.length <
        ([c2Chunk] : List RetrievedChunk).length) :=
  ⟨by decide,
    (c2_amended ⟨4000, 10⟩ [c2Chunk] none).1 (by decide),
    (c2_amended ⟨4000, 10⟩ [c2Chunk] none).2.1,
    (c2_amended ⟨4000, 10⟩ [c2Chunk] none).2.2⟩

/-! ### Response generator (response_generator.py) -/

/-- A source citation (`Source` in `response_generator.py`). -/
structure Source where
  chapter_id : String
  title : String
  section_title : String
  page_url : String
  relevance_score : ℚ
deriving DecidableEq

/-- Result of response generation (`GeneratedResponse`). -/
structure GeneratedResponse where
  response : String
  sources : List Source
  is_fallback : Bool
  query : String
  selected_text : Option String
deriving DecidableEq

/-- The module constant `MIN_RELEVANCE_THRESHOLD = 0.7`. -/
def MIN_RELEVANCE_THRESHOLD : ℚ := mkRat 7 10

/-- Sanity: the threshold constant is the rational 0.7. -/
theorem MIN_RELEVANCE_THRESHOLD_eq : MIN_RELEVANCE_THRESHOLD = 0.7 := by
  rw [MIN_RELEVANCE_THRESHOLD, Rat.mkRat_eq_div]; norm_num

/-- The `Source` built from a chunk in `_extract_sources`. -/
def mkSource (c : RetrievedChunk) : Source :=
  { chapter_id := c.chapter_id
    title := c.title
    section_title := c.section_title
    page_url := c.page_url
    relevance_score := c.score }

/-- The deduplication key of `_extract_sources`:
`f"{chunk.chapter_id}:{chunk.section_title}"`. -/
def sourceKey (c : RetrievedChunk) : String :=
  c.chapter_id ++ ":" ++ c.section_title

/-- The loop of `ResponseGenerator._extract_sources`, carrying the
`seen_chapters` set of keys already emitted. -/
def extractSourcesAux : List RetrievedChunk → List String → List Source
  | [], _ => []
  | c :: rest, seen =>
      if sourceKey c ∈ seen then extractSourcesAux rest seen
      else mkSource c :: extractSourcesAux rest (sourceKey c :: seen)

/-- `ResponseGenerator._extract_sources`: unique sources from chunks,
first occurrence of each key wins. -/
def extract_sources (chunks : List RetrievedChunk) : List Source :=
  extractSourcesAux chunks []

/-- `ResponseGenerator._has_relevant_results`: false on the empty list,
otherwise true iff any chunk's score is `≥ MIN_RELEVANCE_THRESHOLD`. -/
def has_relevant_results (chunks : List RetrievedChunk) : Bool :=
  if chunks = [] then false
  else chunks.any (fun c => MIN_RELEVANCE_THRESHOLD ≤ c.score)

/-- `ResponseGenerator.generate_response`, with the chat-model call
modelled as an oracle `callModel query context is_fb` that is assumed to
succeed (returning the response text). The grounded branch builds context
from the chunks, calls the model, and extracts sources from the chunks
the context builder actually used; the fallback branch returns no
sources and passes `selected_text or ""` as auxiliary context. -/
def generate_response (cb : ContextBuilder)
    (callModel : String → String → Bool → String) (query : String)
    (retrieval_result : RetrievalResult) (selected_text : Option String) :
    GeneratedResponse :=
  if has_relevant_results retrieval_result.chunks then
    let built := build_context cb retrieval_result.chunks selected_text
    { response := callModel query built.context_text false
      sources := extract_sources built.chunks_used
      is_fallback := false
      query := query
      selected_text := selected_text }
  else
    { response := callModel query (selected_text.getD "") true
      sources := []
      is_fallback := true
      query := query
      selected_text := selected_text }

/-- `_has_relevant_results` is false exactly when every chunk scores
below the threshold (including the empty list). -/
theorem has_relevant_results_eq_false_iff (chunks : List RetrievedChunk) :
    has_relevant_results chunks = false ↔
      ∀ c ∈ chunks, c.score < MIN_RELEVANCE_THRESHOLD := by
  by_cases h : chunks = []
  · subst h; simp [has_relevant_results]
  · simp only [has_relevant_results, if_neg h, List.any_eq_true,
      Bool.eq_false_iff, ne_eq]
    constructor
    · intro hno c hc
      by_contra hlt
      exact hno ⟨c, hc, by simpa [not_lt] using hlt⟩
    · rintro hall ⟨c, hc, hs⟩
      have := hall c hc
      simp only [decide_eq_true_eq] at hs
      exact absurd hs (not_le.mpr this)

/-- C1: when no retrieved chunk scores at least
`MIN_RELEVANCE_THRESHOLD = 0.7` (including the empty-chunks case),
`generate_response` returns the fallback response with `is_fallback =
true` and `sources = []`; when at least one chunk scores `≥ 0.7` it
returns a grounded response with `is_fallback = false` (the chat-model
call being modelled as succeeding). -/
theorem c1_fallback_threshold (cb : ContextBuilder)
    (callModel : String → String → Bool → String) (query : String)
    (r : RetrievalResult) (selected_text : Option String) :
    ((∀ c ∈ r.chunks, c.score < MIN_RELEVANCE_THRESHOLD) →
      (generate_response cb callModel query r selected_text).is_fallback = true ∧
      (generate_response cb callModel query r selected_text).sources = []) ∧
    ((∃ c ∈ r.chunks, MIN_RELEVANCE_THRESHOLD ≤ c.score) →
      (generate_response cb callModel query r selected_text).is_fallback = false) := by
  constructor
  · intro hall
    have hfalse : has_relevant_results r.chunks = false :=
      (has_relevant_results_eq_false_iff r.chunks).mpr hall
    constructor <;> simp [generate_response, hfalse]
  · rintro ⟨c, hc, hs⟩
    have hne : r.chunks ≠ [] := by
      intro h; rw [h] at hc; exact absurd hc (List.not_mem_nil c)
    have htrue : has_relevant_results r.chunks = true := by
      simp only [has_relevant_results, if_neg hne, List.any_eq_true]
      exact ⟨c, hc, by simpa using hs⟩
    simp [generate_response, htrue]

/-- A concrete low-scoring chunk (score 0.5, below the 0.7 threshold). -/
def lowChunk : RetrievedChunk :=
  { id := "low"
    content := "Background material."
    chapter_id := "ch2"
    title := "Sensors"
    section_title := "Overview"
    page_url := "/sensors"
    position := 1
    score := mkRat 1 2 }

/-- A concrete high-scoring chunk (score 0.9, above the 0.7 threshold). -/
def highChunk : RetrievedChunk :=
  { id := "high"
    content := "Actuators move the robot."
    chapter_id := "ch3"
    title := "Actuators"
    section_title := "Motors"
    page_url := "/actuators"
    position := 0
    score := mkRat 9 10 }

/-- A constant chat-model oracle used in concrete witnesses. -/
def constModel : String → String → Bool → String := fun _ _ _ => "answer"

/-- Witness for C1: both branches exercised on concrete retrieval
results. -/
theorem c1_fallback_threshold_witness :
    ((∀ c ∈ (RetrievalResult.mk "q" "q" [lowChunk] 1).chunks,
        c.score < MIN_RELEVANCE_THRESHOLD) ∧
      (generate_response ⟨4000, 10⟩ constModel "q"
        (RetrievalResult.mk "q" "q" [lowChunk] 1) none).is_fallback = true ∧
      (generate_response ⟨4000, 10⟩ constModel "q"
        (RetrievalResult.mk "q" "q" [lowChunk] 1) none).sources = []) ∧
    ((∃ c ∈ (RetrievalResult.mk "q" "q" [highChunk] 1).chunks,
        MIN_RELEVANCE_THRESHOLD ≤ c.score) ∧
      (generate_response ⟨4000, 10⟩ constModel "q"
        (RetrievalResult.mk "q" "q" [highChunk] 1) none).is_fallback = false) :=
  ⟨⟨by decide,
    (c1_fallback_threshold ⟨4000, 10⟩ constModel "q"
      (RetrievalResult.mk "q" "q" [lowChunk] 1) none).1 (by decide)⟩,
   ⟨by decide,
    (c1_fallback_threshold ⟨4000, 10⟩ constModel "q"
      (RetrievalResult.mk "q" "q" [highChunk] 1) none).2 (by decide)⟩⟩

/-! ### C6: source deduplication -/

/-- First-occurrence deduplication of chunks by the string key
`sourceKey` (the actual key `f"{chapter_id}:{section_title}"` used by
`_extract_sources`): keeps each chunk whose key has not appeared
earlier. -/
def dedupByKey : List RetrievedChunk → List RetrievedChunk
  | [] => []
  | c :: rest =>
      c :: dedupByKey (rest.filter (fun d => ¬(sourceKey d = sourceKey c)))
termination_by l => l.length
decreasing_by
  simp only [List.length_cons]
  exact Nat.lt_succ_of_le (List.length_filter_le _ _)

/-- Modelled from the spec: the claim's own deduplication rule, keyed by
the PAIR `(chapter_id, section_title)` rather than the concatenated
string — written only to be compared against `extract_sources`. -/
def extractSourcesByPairAux :
    List RetrievedChunk → List (String × String) → List Source
  | [], _ => []
  | c :: rest, seen =>
      if (c.chapter_id, c.section_title) ∈ seen then
        extractSourcesByPairAux rest seen
      else
        mkSource c ::
          extractSourcesByPairAux rest ((c.chapter_id, c.section_title) :: seen)

/-- Source extraction deduplicated by the `(chapter_id, section_title)`
pair, as the claim words it. -/
def extractSourcesByPair (chunks : List RetrievedChunk) : List Source :=
  extractSourcesByPairAux chunks []

/-- A chunk whose chapter id contains a colon. -/
def colonChunkA : RetrievedChunk :=
  { id := "x1"
    content := "first"
    chapter_id := "a:b"
    title := "T1"
    section_title := "c"
    page_url := "/1"
    position := 0
    score := mkRat 9 10 }

/-- A chunk with a different `(chapter_id, section_title)` pair but the
same concatenated key as `colonChunkA`. -/
def colonChunkB : RetrievedChunk :=
  { id := "x2"
    content := "second"
    chapter_id := "a"
    title := "T2"
    section_title := "b:c"
    page_url := "/2"
    position := 1
    score := mkRat 8 10 }

/-- C6 counterexample: `_extract_sources` deduplicates by the
concatenated string `"{chapter_id}:{section_title}"`, not by the pair.
The chunks `("a:b", "c")` and `("a", "b:c")` have distinct pairs but the
same string key `"a:b:c"`, so the code keeps 1 source where pair-wise
deduplication keeps 2. -/
theorem c6_counterexample :
    extract_sources [colonChunkA, colonChunkB] ≠
        extractSourcesByPair [colonChunkA, colonChunkB] ∧
      (extract_sources [colonChunkA, colonChunkB]).length = 1 ∧
      (extractSourcesByPair [colonChunkA, colonChunkB]).length = 2 ∧
      (colonChunkA.chapter_id, colonChunkA.section_title) ≠
        (colonChunkB.chapter_id, colonChunkB.section_title) := by
  refine ⟨?_, by decide, by decide, by decide⟩
  decide

/-- The extraction loop equals first-occurrence deduplication by the
string key, restricted to chunks whose key is not yet seen. -/
theorem extractSourcesAux_eq (chunks : List RetrievedChunk) :
    ∀ seen : List String,
      extractSourcesAux chunks seen =
        (dedupByKey (chunks.filter (fun c => ¬(sourceKey c ∈ seen)))).map
          mkSource := by
  induction chunks with
  | nil => intro seen; simp [extractSourcesAux, dedupByKey]
  | cons c rest ih =>
      intro seen
      by_cases h : sourceKey c ∈ seen
      · rw [extractSourcesAux, if_pos h, ih seen]
        have hfc : (List.filter (fun c => decide ¬(sourceKey c ∈ seen))
            (c :: rest)) = rest.filter (fun c => decide ¬(sourceKey c ∈ seen)) := by
          simp [List.filter_cons, h]
        rw [hfc]
      · rw [extractSourcesAux, if_neg h, ih (sourceKey c :: seen)]
        have hfc : (List.filter (fun c => decide ¬(sourceKey c ∈ seen))
            (c :: rest)) =
            c :: rest.filter (fun c => decide ¬(sourceKey c ∈ seen)) := by
          simp [List.filter_cons, h]
        rw [hfc, dedupByKey]
        simp only [List.map_cons, List.filter_filter]
        have hpt : ∀ d : RetrievedChunk,
            (decide ¬(sourceKey d = sourceKey c) &&
              decide ¬(sourceKey d ∈ seen)) =
            decide ¬(sourceKey d ∈ sourceKey c :: seen) := by
          intro d
          by_cases h1 : sourceKey d = sourceKey c <;>
            by_cases h2 : sourceKey d ∈ seen <;>
            simp [h1, h2]
        rw [List.filter_congr (fun d _ => hpt d)]

/-- `_extract_sources` deduplicates by the concatenated string key,
keeping the first occurrence of each key. -/
theorem extract_sources_eq_dedupByKey (chunks : List RetrievedChunk) :
    extract_sources chunks = (dedupByKey chunks).map mkSource := by
  rw [extract_sources, extractSourcesAux_eq]
  simp

/-- The claim's example chunk (chapter A, section S, score 0.9). -/
def c6exA : RetrievedChunk :=
  { id := "e1", content := "t1", chapter_id := "A", title := "TA"
    section_title := "S", page_url := "/a", position := 0
    score := mkRat 9 10 }

/-- The claim's example chunk (chapter A, section S, score 0.8). -/
def c6exB : RetrievedChunk :=
  { id := "e2", content := "t2", chapter_id := "A", title := "TA"
    section_title := "S", page_url := "/a", position := 1
    score := mkRat 8 10 }

/-- The claim's example chunk (chapter A, section T, score 0.7). -/
def c6exC : RetrievedChunk :=
  { id := "e3", content := "t3", chapter_id := "A", title := "TA"
    section_title := "T", page_url := "/a", position := 2
    score := mkRat 7 10 }

/-- C6 (amended): a grounded response's sources are extracted from
exactly the chunks the context builder included (`chunks_used`), and
`_extract_sources` deduplicates keeping the first occurrence per key —
the key being the concatenated string `"{chapter_id}:{section_title}"`
(which agrees with the `(chapter_id, section_title)` pair whenever the
concatenation is injective on the input, but not in general); on the
claim's example the extracted sources have length 2 and the (A,S) entry
carries relevance score 0.9. -/
theorem c6_amended (cb : ContextBuilder)
    (callModel : String → String → Bool → String) (query : String)
    (r : RetrievalResult) (selected_text : Option String)
    (chunks : List RetrievedChunk) :
    (has_relevant_results r.chunks = true →
      (generate_response cb callModel query r selected_text).sources =
        extract_sources (build_context cb r.chunks selected_text).chunks_used) ∧
    extract_sources chunks = (dedupByKey chunks).map mkSource ∧
    (extract_sources [c6exA, c6exB, c6exC]).map
        (fun s => (s.chapter_id, s.section_title, s.relevance_score)) =
      [("A", "S", mkRat 9 10), ("A", "T", mkRat 7 10)] := by
  refine ⟨fun h => ?_, extract_sources_eq_dedupByKey chunks, by decide⟩
  simp [generate_response, h]

/-- Witness for C6 (amended) at a concrete grounded input. -/
theorem c6_amended_witness :
    has_relevant_results (RetrievalResult.mk "q" "q" [highChunk] 1).chunks = true ∧
    (generate_response ⟨4000, 10⟩ constModel "q"
        (RetrievalResult.mk "q" "q" [highChunk] 1) none).sources =
      extract_sources
        (build_context ⟨4000, 10⟩
          (RetrievalResult.mk "q" "q" [highChunk] 1).chunks none).chunks_used :=
  ⟨by decide,
    (c6_amended ⟨4000, 10⟩ constModel "q"
      (RetrievalResult.mk "q" "q" [highChunk] 1) none []).1 (by decide)⟩

/-! ### C8: chapter-priority reordering -/

/-- C8: for a non-empty `priority_chapter_id`,
`build_context_with_priority` equals `build_context` on the stable
partition (priority-chapter chunks first, in their original relative
order, then all others in theirs); moreover the chunks actually used are
an initial segment of that reordered list, so no non-priority chunk is
considered before every priority chunk. -/
theorem c8_priority_reordering (cb : ContextBuilder)
    (chunks : List RetrievedChunk) (p : String)
    (selected_text : Option String) (hp : p ≠ "") :
    build_context_with_priority cb chunks (some p) selected_text =
      build_context cb
        (chunks.filter (fun c => c.chapter_id = p)
          ++ chunks.filter (fun c => ¬(c.chapter_id = p)))
        selected_text ∧
    ∃ k, (build_context_with_priority cb chunks (some p) selected_text).chunks_used =
      (chunks.filter (fun c => c.chapter_id = p)
        ++ chunks.filter (fun c => ¬(c.chapter_id = p))).take k := by
  have heq : build_context_with_priority cb chunks (some p) selected_text =
      build_context cb
        (chunks.filter (fun c => c.chapter_id = p)
          ++ chunks.filter (fun c => ¬(c.chapter_id = p)))
        selected_text := by
    simp [build_context_with_priority, hp]
  refine ⟨heq, ?_⟩
  rw [heq]
  set reordered := chunks.filter (fun c => c.chapter_id = p)
    ++ chunks.filter (fun c => ¬(c.chapter_id = p)) with hre
  by_cases h : reordered = []
  · exact ⟨0, by simp [build_context, h]⟩
  · obtain ⟨k, hk⟩ :=
      buildLoop_used_take cb reordered 0 (baseOverhead selected_text)
    exact ⟨k, by simp [build_context, h, hk]⟩

/-- The claim's example chunk from chapter V with score 0.95. -/
def c8V : RetrievedChunk :=
  { id := "v", content := "vision content", chapter_id := "V", title := "TV"
    section_title := "SV", page_url := "/v", position := 0
    score := mkRat 95 100 }

/-- The claim's first example chunk from chapter M with score 0.90. -/
def c8M1 : RetrievedChunk :=
  { id := "m1", content := "motion content one", chapter_id := "M"
    title := "TM", section_title := "SM1", page_url := "/m", position := 0
    score := mkRat 90 100 }

/-- The claim's second example chunk from chapter M with score 0.85. -/
def c8M2 : RetrievedChunk :=
  { id := "m2", content := "motion content two", chapter_id := "M"
    title := "TM", section_title := "SM2", page_url := "/m", position := 1
    score := mkRat 85 100 }

/-- Witness for C8 on the claim's example: priority "M" puts both
chapter-M chunks before the chapter-V chunk in `chunks_used`. -/
theorem c8_priority_reordering_witness :
    ("M" : String) ≠ "" ∧
    build_context_with_priority ⟨4000, 10⟩ [c8V, c8M1, c8M2] (some "M") none =
      build_context ⟨4000, 10⟩
        (([c8V, c8M1, c8M2] : List RetrievedChunk).filter
            (fun c => c.chapter_id = "M")
          ++ ([c8V, c8M1, c8M2] : List RetrievedChunk).filter
            (fun c => ¬(c.chapter_id = "M")))
        none ∧
    (∃ k, (build_context_with_priority ⟨4000, 10⟩ [c8V, c8M1, c8M2]
        (some "M") none).chunks_used =
      (([c8V, c8M1, c8M2] : List RetrievedChunk).filter
          (fun c => c.chapter_id = "M")
        ++ ([c8V, c8M1, c8M2] : List RetrievedChunk).filter
          (fun c => ¬(c.chapter_id = "M"))).take k) ∧
    (build_context_with_priority ⟨4000, 10⟩ [c8V, c8M1, c8M2]
        (some "M") none).chunks_used.map RetrievedChunk.chapter_id =
      ["M", "M", "V"] :=
  ⟨by decide,
    (c8_priority_reordering ⟨4000, 10⟩ [c8V, c8M1, c8M2] "M" none (by decide)).1,
    (c8_priority_reordering ⟨4000, 10⟩ [c8V, c8M1, c8M2] "M" none (by decide)).2,
    by decide⟩

/-! ### Vector retriever (retriever_service.py) -/

/-- Class constant `DEFAULT_TOP_K = 5` (also the constructor default for
`default_top_k`, as used by the global retriever instance). -/
def DEFAULT_TOP_K : Nat := 5

/-- Class constant `MAX_TOP_K = 20`. -/
def MAX_TOP_K : Nat := 20

/-- Class constant `DEFAULT_SCORE_THRESHOLD = 0.5` (constructor default
for `default_score_threshold`). -/
def DEFAULT_SCORE_THRESHOLD : ℚ := mkRat 1 2

/-- Python's `x or d` for an optional int parameter: `None` and `0` are
falsy and yield the default. -/
def pyOrNat (v : Option Nat) (d : Nat) : Nat :=
  match v with
  | none => d
  | some k => if k = 0 then d else k

/-- Python's `x or d` for an optional float parameter: `None` and `0.0`
are falsy and yield the default. -/
def pyOrRat (v : Option ℚ) (d : ℚ) : ℚ :=
  match v with
  | none => d
  | some s => if s = 0 then d else s

/-- The effective `top_k` of `VectorRetriever.retrieve` /
`retrieve_with_embedding`: `min(top_k or default_top_k, MAX_TOP_K)`. -/
def effectiveTopK (topK : Option Nat) : Nat :=
  min (pyOrNat topK DEFAULT_TOP_K) MAX_TOP_K

/-- The effective score threshold:
`score_threshold or default_score_threshold`. -/
def effectiveScoreThreshold (score_threshold : Option ℚ) : ℚ :=
  pyOrRat score_threshold DEFAULT_SCORE_THRESHOLD

/-- The retriever's external collaborators as oracles: the query
processor (returning the processed query text and its embedding) and the
vector store's `search(query_vector, limit, score_threshold)`, whose
hits are already converted to `RetrievedChunk`s (the conversion in the
source is a field-by-field copy). -/
structure RetrieverEnv where
  processQuery : String → String × List ℚ
  search : List ℚ → Nat → ℚ → List RetrievedChunk

/-- `VectorRetriever.retrieve`: apply the truthiness defaults and the
`MAX_TOP_K` clamp, process the query, search, and wrap the results. -/
def retrieve (env : RetrieverEnv) (query : String) (topK : Option Nat)
    (score_threshold : Option ℚ) : RetrievalResult :=
  let k := effectiveTopK topK
  let s := effectiveScoreThreshold score_threshold
  let pq := env.processQuery query
  let chunks := env.search pq.2 k s
  { query := query
    processed_query := pq.1
    chunks := chunks
    total_found := chunks.length }

/-- `VectorRetriever.retrieve_with_embedding`: same defaulting and
clamping, searching with a pre-computed embedding. -/
def retrieve_with_embedding (env : RetrieverEnv) (embedding : List ℚ)
    (topK : Option Nat) (score_threshold : Option ℚ) : List RetrievedChunk :=
  env.search embedding (effectiveTopK topK) (effectiveScoreThreshold score_threshold)

/-- `VectorRetriever.retrieve_by_chapter`: calls `retrieve` with
`top_k = (top_k or default_top_k) * 3`, filters the hits client-side to
the requested chapter, and truncates to `top_k or default_top_k`. -/
def retrieve_by_chapter (env : RetrieverEnv) (query : String)
    (chapter_id : String) (topK : Option Nat) (score_threshold : Option ℚ) :
    RetrievalResult :=
  let r := retrieve env query (some (pyOrNat topK DEFAULT_TOP_K * 3)) score_threshold
  let filtered := (r.chunks.filter (fun c => c.chapter_id = chapter_id)).take
    (pyOrNat topK DEFAULT_TOP_K)
  { query := r.query
    processed_query := r.processed_query
    chunks := filtered
    total_found := filtered.length }

/-- C5: for a non-zero requested `top_k`, `retrieve_by_chapter` passes
3 times that `top_k` to the unfiltered `retrieve` (which applies its own
`MAX_TOP_K` clamp), filters client-side to the requested chapter, and
truncates to `top_k`; hence every returned chunk carries the requested
`chapter_id` and at most `top_k` chunks are returned — for any search
oracle. -/
theorem c5_retrieve_by_chapter (env : RetrieverEnv) (query chapter_id : String)
    (k : Nat) (score_threshold : Option ℚ) (hk : k ≠ 0) :
    (retrieve_by_chapter env query chapter_id (some k) score_threshold).chunks =
      ((retrieve env query (some (k * 3)) score_threshold).chunks.filter
        (fun c => c.chapter_id = chapter_id)).take k ∧
    (∀ c ∈ (retrieve_by_chapter env query chapter_id (some k)
        score_threshold).chunks, c.chapter_id = chapter_id) ∧
    (retrieve_by_chapter env query chapter_id (some k)
        score_threshold).chunks.length ≤ k := by
  have hpy : pyOrNat (some k) DEFAULT_TOP_K = k := by
    simp [pyOrNat, hk]
  refine ⟨by simp [retrieve_by_chapter, hpy], ?_, ?_⟩
  · intro c hc
    simp only [retrieve_by_chapter, hpy] at hc
    have := List.mem_of_mem_take hc
    have := List.of_mem_filter this
    simpa using this
  · simp only [retrieve_by_chapter, hpy]
    exact List.length_take_le _ _

/-- A concrete retriever environment whose store returns three chunks
from chapters ch3, ch2 and M. -/
def c5Env : RetrieverEnv :=
  { processQuery := fun q => (q, [1])
    search := fun _ _ _ => [highChunk, lowChunk, c8M1] }

/-- Witness for C5 at `top_k = 2`, chapter "ch2". -/
theorem c5_retrieve_by_chapter_witness :
    (2 : Nat) ≠ 0 ∧
    (retrieve_by_chapter c5Env "q" "ch2" (some 2) none).chunks =
      ((retrieve c5Env "q" (some (2 * 3)) none).chunks.filter
        (fun c => c.chapter_id = "ch2")).take 2 ∧
    (∀ c ∈ (retrieve_by_chapter c5Env "q" "ch2" (some 2) none).chunks,
      c.chapter_id = "ch2") ∧
    (retrieve_by_chapter c5Env "q" "ch2" (some 2) none).chunks.length ≤ 2 :=
  ⟨by decide,
    (c5_retrieve_by_chapter c5Env "q" "ch2" 2 none (by decide)).1,
    (c5_retrieve_by_chapter c5Env "q" "ch2" 2 none (by decide)).2.1,
    (c5_retrieve_by_chapter c5Env "q" "ch2" 2 none (by decide)).2.2⟩

/-- C9: because `top_k` and `score_threshold` are combined with Python's
truthiness `or`, passing `top_k = 0` or `score_threshold = 0.0` at the
public `retrieve` / `retrieve_with_embedding` interface behaves exactly
like leaving the parameter unspecified — the defaults `top_k = 5` and
`score_threshold = 0.5` apply, so zero results or a zero threshold can
never be requested; and any `top_k > 20` is silently clamped to 20. -/
theorem c9_truthiness_defaults (env : RetrieverEnv) (query : String)
    (embedding : List ℚ) (topK : Option Nat) (score_threshold : Option ℚ)
    (k : Nat) (hk : 20 < k) :
    retrieve env query (some 0) score_threshold =
      retrieve env query none score_threshold ∧
    retrieve env query topK (some 0) = retrieve env query topK none ∧
    retrieve_with_embedding env embedding (some 0) score_threshold =
      retrieve_with_embedding env embedding none score_threshold ∧
    retrieve_with_embedding env embedding topK (some 0) =
      retrieve_with_embedding env embedding topK none ∧
    effectiveTopK none = 5 ∧
    effectiveScoreThreshold none = DEFAULT_SCORE_THRESHOLD ∧
    effectiveTopK (some k) = 20 := by
  refine ⟨?_, ?_, ?_, ?_, ?_, ?_, ?_⟩
  · simp [retrieve, effectiveTopK, pyOrNat]
  · simp [retrieve, effectiveScoreThreshold, pyOrRat]
  · simp [retrieve_with_embedding, effectiveTopK, pyOrNat]
  · simp [retrieve_with_embedding, effectiveScoreThreshold, pyOrRat]
  · simp [effectiveTopK, pyOrNat, DEFAULT_TOP_K, MAX_TOP_K]
  · simp [effectiveScoreThreshold, pyOrRat]
  · have hk0 : k ≠ 0 := by omega
    simp [effectiveTopK, pyOrNat, hk0, MAX_TOP_K]
    omega

/-- Witness for C9 at `k = 25` on a concrete environment. -/
theorem c9_truthiness_defaults_witness :
    20 < 25 ∧
    retrieve c5Env "q" (some 0) none = retrieve c5Env "q" none none ∧
    retrieve c5Env "q" (some 3) (some 0) = retrieve c5Env "q" (some 3) none ∧
    retrieve_with_embedding c5Env [1] (some 0) none =
      retrieve_with_embedding c5Env [1] none none ∧
    retrieve_with_embedding c5Env [1] (some 3) (some 0) =
      retrieve_with_embedding c5Env [1] (some 3) none ∧
    effectiveTopK none = 5 ∧
    effectiveScoreThreshold none = DEFAULT_SCORE_THRESHOLD ∧
    effectiveTopK (some 25) = 20 :=
  ⟨by decide,
    (c9_truthiness_defaults c5Env "q" [1] (some 3) none 25 (by decide)).1,
    (c9_truthiness_defaults c5Env "q" [1] (some 3) none 25 (by decide)).2.1,
    (c9_truthiness_defaults c5Env "q" [1] (some 3) none 25 (by decide)).2.2.1,
    (c9_truthiness_defaults c5Env "q" [1] (some 3) none 25 (by decide)).2.2.2.1,
    (c9_truthiness_defaults c5Env "q" [1] (some 3) none 25 (by decide)).2.2.2.2.1,
    (c9_truthiness_defaults c5Env "q" [1] (some 3) none 25 (by decide)).2.2.2.2.2.1,
    (c9_truthiness_defaults c5Env "q" [1] (some 3) none 25 (by decide)).2.2.2.2.2.2⟩

/-! ### Embedding service batching (embedding_service.py) -/

/-- Class constant `MAX_BATCH_SIZE = 100`. -/
def MAX_BATCH_SIZE : Nat := 100

/-- Class constant `MAX_TOKENS_PER_BATCH = 8000`. -/
def MAX_TOKENS_PER_BATCH : Nat := 8000

/-- The loop of `EmbeddingService._create_batches`: walk the texts
carrying the current batch and its token estimate; when the next text
would exceed the item-count cap or the token cap, close the current
batch (if non-empty) and start a new one containing that text. -/
def createBatchesAux : List String → List String → Nat → List (List String)
  | [], cur, _ => if cur = [] then [] else [cur]
  | t :: rest, cur, curTokens =>
      let estimated := t.length / 4
      if MAX_BATCH_SIZE ≤ cur.length ∨
          MAX_TOKENS_PER_BATCH < curTokens + estimated then
        if cur = [] then createBatchesAux rest [t] estimated
        else cur :: createBatchesAux rest [t] estimated
      else
        createBatchesAux rest (cur ++ [t]) (curTokens + estimated)

/-- `EmbeddingService._create_batches`. -/
def create_batches (texts : List String) : List (List String) :=
  createBatchesAux texts [] 0

/-- Flattening the loop's output restores the pending batch followed by
the remaining texts. -/
theorem createBatchesAux_flatten (texts : List String) :
    ∀ (cur : List String) (curTokens : Nat),
      (createBatchesAux texts cur curTokens).flatten = cur ++ texts := by
  induction texts with
  | nil =>
      intro cur curTokens
      by_cases h : cur = [] <;> simp [createBatchesAux, h]
  | cons t rest ih =>
      intro cur curTokens
      rcases eq_or_ne cur [] with hnil | hnil
      · subst hnil
        by_cases htok : MAX_TOKENS_PER_BATCH < curTokens + t.length / 4
        · simp [createBatchesAux, htok, ih]
        · simp [createBatchesAux, htok, MAX_BATCH_SIZE, ih]
      · by_cases hcap : MAX_BATCH_SIZE ≤ cur.length ∨
            MAX_TOKENS_PER_BATCH < curTokens + t.length / 4
        · simp [createBatchesAux, hcap, hnil, ih]
        · simp [createBatchesAux, hcap, ih]

/-- Every batch the loop emits has at most `MAX_BATCH_SIZE` texts,
provided the pending batch does. -/
theorem createBatchesAux_size_le (texts : List String) :
    ∀ (cur : List String) (curTokens : Nat), cur.length ≤ MAX_BATCH_SIZE →
      ∀ b ∈ createBatchesAux texts cur curTokens, b.length ≤ MAX_BATCH_SIZE := by
  induction texts with
  | nil =>
      intro cur curTokens hcur b hb
      by_cases h : cur = [] <;> simp [createBatchesAux, h] at hb
      · rw [hb]; exact hcur
  | cons t rest ih =>
      intro cur curTokens hcur b hb
      rcases eq_or_ne cur [] with hnil | hnil
      · subst hnil
        by_cases htok : MAX_TOKENS_PER_BATCH < curTokens + t.length / 4
        · simp only [createBatchesAux, htok, or_true, ite_true, if_pos rfl] at hb
          exact ih [t] (t.length / 4) (by simp [MAX_BATCH_SIZE]) b hb
        · have hcond : ¬(MAX_BATCH_SIZE ≤ ([] : List String).length ∨
              MAX_TOKENS_PER_BATCH < curTokens + t.length / 4) := by
            simp [MAX_BATCH_SIZE, htok]
          simp only [createBatchesAux, hcond, ite_false, if_neg,
            List.nil_append] at hb
          exact ih [t] (curTokens + t.length / 4)
            (by simp [MAX_BATCH_SIZE]) b hb
      · by_cases hcap : MAX_BATCH_SIZE ≤ cur.length ∨
            MAX_TOKENS_PER_BATCH < curTokens + t.length / 4
        · simp only [createBatchesAux, hcap, ite_true, if_pos, hnil,
            ite_false, if_neg, List.mem_cons] at hb
          rcases hb with hb | hb
          · rw [hb]; exact hcur
          · exact ih [t] (t.length / 4) (by simp [MAX_BATCH_SIZE]) b hb
        · have hlt : cur.length < MAX_BATCH_SIZE := by
            rcases Nat.lt_or_ge cur.length MAX_BATCH_SIZE with h | h
            · exact h
            · exact absurd (Or.inl h) hcap
          simp only [createBatchesAux, hcap, ite_false, if_neg] at hb
          refine ih (cur ++ [t]) (curTokens + t.length / 4) ?_ b hb
          simp only [List.length_append, List.length_singleton]
          omega

/-- C7: `_create_batches` partitions its input in order (flattening the
batches restores the text list), never emits a batch with more than
`MAX_BATCH_SIZE = 100` texts, and on 250 texts short enough that the
token cap is never reached it produces exactly 3 batches of sizes
100, 100 and 50. -/
theorem c7_create_batches (texts : List String) :
    (create_batches texts).flatten = texts ∧
    (∀ b ∈ create_batches texts, b.length ≤ MAX_BATCH_SIZE) ∧
    (create_batches (List.replicate 250 "t")).map List.length =
      [100, 100, 50] := by
  refine ⟨?_, ?_, by decide⟩
  · simpa using createBatchesAux_flatten texts [] 0
  · exact createBatchesAux_size_le texts [] 0 (by simp)

/-- Witness for C7 on concrete texts (membership hypothesis discharged
at the single batch produced). -/
theorem c7_create_batches_witness :
    (create_batches ["ab", "cd"]).flatten = ["ab", "cd"] ∧
    (["ab", "cd"] : List String) ∈ create_batches ["ab", "cd"] ∧
    (["ab", "cd"] : List String).length ≤ MAX_BATCH_SIZE ∧
    (create_batches (List.replicate 250 "t")).map List.length =
      [100, 100, 50] :=
  ⟨(c7_create_batches ["ab", "cd"]).1, by decide,
    (c7_create_batches ["ab", "cd"]).2.1 ["ab", "cd"] (by decide),
    (c7_create_batches ["ab", "cd"]).2.2⟩

/-! ### Content chunks and the indexer (content_parser.py, indexer_service.py) -/

/-- Metadata extracted from a content file (`ContentMetadata` in
`content_parser.py`). -/
structure ContentMetadata where
  chapter_id : String
  title : String
  section_title : String
  page_url : String
  sidebar_position : Option Nat
deriving DecidableEq

/-- A chunk of content with metadata (`ContentChunk`). -/
structure ContentChunk where
  id : String
  content : String
  metadata : ContentMetadata
  position : Nat
  token_count : Nat
deriving DecidableEq

/-- An embedding result (`EmbeddingResult` in `embedding_service.py`). -/
structure EmbeddingResultM where
  text : String
  embedding : List ℚ
  token_count : Nat
deriving DecidableEq

/-- The metadata payload stored with a vector
(the dict built in `index_chunks`). -/
structure ChunkPayload where
  chapter_id : String
  title : String
  section_title : String
  page_url : String
  position : Nat
  token_count : Nat
  content : String
deriving DecidableEq

/-- A chunk ready for indexing with its embedding (`IndexedChunk`). -/
structure IndexedChunk where
  id : String
  content : String
  embedding : List ℚ
  metadata : ChunkPayload
deriving DecidableEq

/-- Result of an indexing operation (`IndexingResult`). -/
structure IndexingResult where
  total_chunks : Nat
  indexed_chunks : Nat
  failed_chunks : Nat
  chapters_processed : List String
  errors : List String
deriving DecidableEq

/-- Class constant `UPSERT_BATCH_SIZE = 100`. -/
def UPSERT_BATCH_SIZE : Nat := 100

/-- Fuel-driven slicing into consecutive sub-lists of at most `n`
elements: the model of `range(0, len(xs), n)` slicing. -/
def sliceBatchesAux {α : Type} (n : Nat) : Nat → List α → List (List α)
  | _, [] => []
  | 0, _ :: _ => []
  | fuel + 1, x :: xs => (x :: xs).take n :: sliceBatchesAux n fuel ((x :: xs).drop n)

/-- Slice a list into consecutive sub-batches of size `n` (the last may
be shorter). -/
def sliceBatches {α : Type} (n : Nat) (l : List α) : List (List α) :=
  sliceBatchesAux n l.length l

/-- Insert a string into a sorted list (used to model Python's
`sorted`). -/
def insertSorted (s : String) : List String → List String
  | [] => [s]
  | t :: rest => if s ≤ t then s :: t :: rest else t :: insertSorted s rest

/-- Sort a list of strings (model of Python's `sorted`). -/
def sortStrings (l : List String) : List String :=
  l.foldr insertSorted []

/-- The `IndexedChunk` built from a content chunk and its embedding
result in `index_chunks`. -/
def mkIndexedChunk (p : ContentChunk × EmbeddingResultM) : IndexedChunk :=
  { id := p.1.id
    content := p.1.content
    embedding := p.2.embedding
    metadata :=
      { chapter_id := p.1.metadata.chapter_id
        title := p.1.metadata.title
        section_title := p.1.metadata.section_title
        page_url := p.1.metadata.page_url
        position := p.1.position
        token_count := p.1.token_count
        content := p.1.content } }

/-- The prepared indexed chunks: `zip(chunks, embedding_results)` mapped
through the payload construction (zip truncates to the shorter list,
exactly as Python's `zip`). -/
def indexedChunksOf (chunks : List ContentChunk)
    (embeds : List EmbeddingResultM) : List IndexedChunk :=
  (chunks.zip embeds).map mkIndexedChunk

/-- The upsert loop of `index_chunks`: batch `i` (0-based) either
succeeds (`upsert i = none`), adding its size to the indexed count, or
fails with message `e` (`upsert i = some e`), adding its size to the
failed count and recording
`"Failed to upsert batch {i+1}: {e}"`; every batch is attempted.
Returns (indexed, failed, errors). -/
def upsertLoop (upsert : Nat → Option String) :
    List (List IndexedChunk) → Nat → Nat × Nat × List String
  | [], _ => (0, 0, [])
  | b :: rest, i =>
      let r := upsertLoop upsert rest (i + 1)
      match upsert i with
      | none => (b.length + r.1, r.2.1, r.2.2)
      | some e =>
          (r.1, b.length + r.2.1,
            ("Failed to upsert batch " ++ toString (i + 1) ++ ": " ++ e) :: r.2.2)

/-- `QdrantIndexer.index_chunks`, with the embedding service call
modelled as an `Except` outcome (exception message or the list of
embedding results) and each sub-batch upsert modelled by the oracle
`upsert` (batch index ↦ `none` for success or `some message` for the
caught exception). Empty input short-circuits; an embedding failure
fails the whole batch with a single error; otherwise chunks are zipped
with their embeddings, chapters are collected from the zipped chunks and
sorted, and the upsert loop runs over `UPSERT_BATCH_SIZE`-sized
sub-batches. -/
def index_chunks (embedOutcome : Except String (List EmbeddingResultM))
    (upsert : Nat → Option String) (chunks : List ContentChunk) :
    IndexingResult :=
  if chunks = [] then
    { total_chunks := 0, indexed_chunks := 0, failed_chunks := 0
      chapters_processed := [], errors := [] }
  else
    match embedOutcome with
    | .error e =>
        { total_chunks := chunks.length
          indexed_chunks := 0
          failed_chunks := chunks.length
          chapters_processed := []
          errors := ["Embedding generation failed: " ++ e] }
    | .ok embedding_results =>
        let indexed_chunks := indexedChunksOf chunks embedding_results
        let chapters := sortStrings
          (((chunks.zip embedding_results).map
            (fun p => p.1.metadata.chapter_id)).dedup)
        let batches := sliceBatches UPSERT_BATCH_SIZE indexed_chunks
        let r := upsertLoop upsert batches 0
        { total_chunks := chunks.length
          indexed_chunks := r.1
          failed_chunks := r.2.1
          chapters_processed := chapters
          errors := r.2.2 }

/-- Flattening the slices of a list restores it (fuel-general form). -/
theorem sliceBatchesAux_flatten {α : Type} (n : Nat) (hn : 0 < n) :
    ∀ (fuel : Nat) (l : List α), l.length ≤ fuel →
      (sliceBatchesAux n fuel l).flatten = l := by
  intro fuel
  induction fuel with
  | zero =>
      intro l hl
      have : l = [] := List.length_eq_zero.mp (Nat.le_zero.mp hl)
      subst this
      simp [sliceBatchesAux]
  | succ fuel ih =>
      intro l hl
      match l with
      | [] => simp [sliceBatchesAux]
      | x :: xs =>
          have hdrop : ((x :: xs).drop n).length ≤ fuel := by
            simp only [List.length_cons] at hl
            simp only [List.length_drop, List.length_cons]
            omega
          simp only [sliceBatchesAux, List.flatten_cons, ih _ hdrop]
          exact List.take_append_drop n (x :: xs)

/-- Flattening `sliceBatches` restores the list. -/
theorem sliceBatches_flatten {α : Type} (n : Nat) (hn : 0 < n)
    (l : List α) : (sliceBatches n l).flatten = l :=
  sliceBatchesAux_flatten n hn l.length l (Nat.le_refl _)

/-- The upsert loop's indexed and failed counts add up to the total size
of all batches: every sub-batch is accounted for. -/
theorem upsertLoop_add (upsert : Nat → Option String) :
    ∀ (bs : List (List IndexedChunk)) (i : Nat),
      (upsertLoop upsert bs i).1 + (upsertLoop upsert bs i).2.1 =
        (bs.map List.length).sum := by
  intro bs
  induction bs with
  | nil => intro i; simp [upsertLoop]
  | cons b rest ih =>
      intro i
      have hrec := ih (i + 1)
      cases h : upsert i with
      | none =>
          simp only [upsertLoop, h, List.map_cons, List.sum_cons]
          omega
      | some e =>
          simp only [upsertLoop, h, List.map_cons, List.sum_cons]
          omega

/-- The failed count is the total size of exactly the failing batches. -/
theorem upsertLoop_failed (upsert : Nat → Option String) :
    ∀ (bs : List (List IndexedChunk)) (i : Nat),
      (upsertLoop upsert bs i).2.1 =
        (((bs.enumFrom i).filter (fun p => (upsert p.1).isSome)).map
          (fun p => p.2.length)).sum := by
  intro bs
  induction bs with
  | nil => intro i; simp [upsertLoop, List.enumFrom]
  | cons b rest ih =>
      intro i
      cases h : upsert i with
      | none => simp [upsertLoop, h, List.enumFrom, ih (i + 1)]
      | some e => simp [upsertLoop, h, List.enumFrom, ih (i + 1)]

/-- One error message is recorded per failing batch. -/
theorem upsertLoop_errors_length (upsert : Nat → Option String) :
    ∀ (bs : List (List IndexedChunk)) (i : Nat),
      (upsertLoop upsert bs i).2.2.length =
        ((bs.enumFrom i).filter (fun p => (upsert p.1).isSome)).length := by
  intro bs
  induction bs with
  | nil => intro i; simp [upsertLoop, List.enumFrom]
  | cons b rest ih =>
      intro i
      cases h : upsert i with
      | none => simp [upsertLoop, h, List.enumFrom, ih (i + 1)]
      | some e => simp [upsertLoop, h, List.enumFrom, ih (i + 1)]

/-- C4: for non-empty input, an embedding-generation failure fails the
whole batch (`indexed = 0`, `failed = total`, no chapters, exactly the
one recorded error); on embedding success (one result per chunk), every
fixed-size upsert sub-batch is accounted for even when earlier
sub-batches fail: `indexed + failed = total`, the failed count is the
summed size of exactly the failing sub-batches, and one error message is
recorded per failing sub-batch. -/
theorem c4_index_chunks_partial_failure (chunks : List ContentChunk)
    (e : String) (embeds : List EmbeddingResultM)
    (upsert : Nat → Option String) (hne : chunks ≠ []) :
    index_chunks (.error e) upsert chunks =
      { total_chunks := chunks.length
        indexed_chunks := 0
        failed_chunks := chunks.length
        chapters_processed := []
        errors := ["Embedding generation failed: " ++ e] } ∧
    (embeds.length = chunks.length →
      (index_chunks (.ok embeds) upsert chunks).indexed_chunks +
          (index_chunks (.ok embeds) upsert chunks).failed_chunks =
        (index_chunks (.ok embeds) upsert chunks).total_chunks ∧
      (index_chunks (.ok embeds) upsert chunks).total_chunks = chunks.length ∧
      (index_chunks (.ok embeds) upsert chunks).failed_chunks =
        ((((sliceBatches UPSERT_BATCH_SIZE
              (indexedChunksOf chunks embeds)).enumFrom 0).filter
            (fun p => (upsert p.1).isSome)).map (fun p => p.2.length)).sum ∧
      (index_chunks (.ok embeds) upsert chunks).errors.length =
        (((sliceBatches UPSERT_BATCH_SIZE
              (indexedChunksOf chunks embeds)).enumFrom 0).filter
          (fun p => (upsert p.1).isSome)).length) := by
  constructor
  · simp [index_chunks, hne]
  · intro hlen
    have hflat :
        (sliceBatches UPSERT_BATCH_SIZE (indexedChunksOf chunks embeds)).flatten =
          indexedChunksOf chunks embeds :=
      sliceBatches_flatten UPSERT_BATCH_SIZE (by simp [UPSERT_BATCH_SIZE]) _
    have hsum :
        ((sliceBatches UPSERT_BATCH_SIZE
            (indexedChunksOf chunks embeds)).map List.length).sum =
          chunks.length := by
      have h1 := congrArg List.length hflat
      rw [List.length_flatten] at h1
      rw [h1]
      simp [indexedChunksOf, hlen]
    refine ⟨?_, ?_, ?_, ?_⟩
    · simp only [index_chunks, hne, ite_false, if_neg]
      rw [upsertLoop_add upsert _ 0, hsum]
    · simp [index_chunks, hne]
    · simp only [index_chunks, hne, ite_false, if_neg]
      exact upsertLoop_failed upsert _ 0
    · simp only [index_chunks, hne, ite_false, if_neg]
      exact upsertLoop_errors_length upsert _ 0

/-- Concrete metadata used in the C4 witness. -/
def c4meta : ContentMetadata :=
  { chapter_id := "ch1", title := "T", section_title := "S"
    page_url := "/p", sidebar_position := none }

/-- First concrete content chunk for the C4 witness. -/
def c4chunkA : ContentChunk :=
  { id := "id1", content := "text one", metadata := c4meta
    position := 0, token_count := 2 }

/-- Second concrete content chunk for the C4 witness. -/
def c4chunkB : ContentChunk :=
  { id := "id2", content := "text two", metadata := c4meta
    position := 1, token_count := 2 }

/-- Concrete embedding results for the C4 witness. -/
def c4embeds : List EmbeddingResultM :=
  [{ text := "text one", embedding := [1, 0], token_count := 2 },
   { text := "text two", embedding := [0, 1], token_count := 2 }]

/-- A concrete upsert oracle whose batch 0 fails. -/
def c4upsert : Nat → Option String :=
  fun i => if i = 0 then some "boom" else none

/-- Witness for C4 at a concrete two-chunk batch whose single upsert
sub-batch fails. -/
theorem c4_index_chunks_partial_failure_witness :
    ([c4chunkA, c4chunkB] : List ContentChunk) ≠ [] ∧
    c4embeds.length = ([c4chunkA, c4chunkB] : List ContentChunk).length ∧
    index_chunks (.error "down") c4upsert [c4chunkA, c4chunkB] =
      { total_chunks := 2
        indexed_chunks := 0
        failed_chunks := 2
        chapters_processed := []
        errors := ["Embedding generation failed: down"] } ∧
    (index_chunks (.ok c4embeds) c4upsert [c4chunkA, c4chunkB]).indexed_chunks +
        (index_chunks (.ok c4embeds) c4upsert [c4chunkA, c4chunkB]).failed_chunks =
      (index_chunks (.ok c4embeds) c4upsert [c4chunkA, c4chunkB]).total_chunks ∧
    (index_chunks (.ok c4embeds) c4upsert [c4chunkA, c4chunkB]).errors.length =
      (((sliceBatches UPSERT_BATCH_SIZE
            (indexedChunksOf [c4chunkA, c4chunkB] c4embeds)).enumFrom 0).filter
        (fun p => (c4upsert p.1).isSome)).length :=
  ⟨by decide, by decide,
    by
      have h := (c4_index_chunks_partial_failure [c4chunkA, c4chunkB] "down"
        c4embeds c4upsert (by decide)).1
      simpa using h,
    ((c4_index_chunks_partial_failure [c4chunkA, c4chunkB] "down"
      c4embeds c4upsert (by decide)).2 (by decide)).1,
    ((c4_index_chunks_partial_failure [c4chunkA, c4chunkB] "down"
      c4embeds c4upsert (by decide)).2 (by decide)).2.2.2⟩

/-! ### SHA-1 and UUID version 5 (used by `_generate_chunk_id`) -/

/-- 32-bit left rotation on a `Nat` below `2^32`. -/
def rotl32 (x n : Nat) : Nat :=
  ((x <<< n) % 4294967296) ||| (x >>> (32 - n))

/-- Big-endian byte decomposition of `n` into `k` bytes. -/
def bytesBE (k n : Nat) : List Nat :=
  (List.range k).map (fun i => (n >>> (8 * (k - 1 - i))) % 256)

/-- Group bytes into big-endian 32-bit words. -/
def toWordsBE : List Nat → List Nat
  | b0 :: b1 :: b2 :: b3 :: rest =>
      (((b0 * 256 + b1) * 256 + b2) * 256 + b3) :: toWordsBE rest
  | _ => []

/-- Number of zero bytes of SHA-1 padding after the `0x80` byte. -/
def sha1PadZeros (len : Nat) : Nat := (119 - len % 64) % 64

/-- SHA-1 message padding: append `0x80`, zero bytes to 56 mod 64, and
the 64-bit big-endian bit length. -/
def sha1Pad (msg : List Nat) : List Nat :=
  msg ++ [128] ++ List.replicate (sha1PadZeros msg.length) 0
    ++ bytesBE 8 (msg.length * 8)

/-- The five 32-bit SHA-1 chaining words. -/
structure SHA1State where
  h0 : Nat
  h1 : Nat
  h2 : Nat
  h3 : Nat
  h4 : Nat
deriving DecidableEq

/-- SHA-1 initial state. -/
def sha1Init : SHA1State :=
  ⟨0x67452301, 0xEFCDAB89, 0x98BADCFE, 0x10325476, 0xC3D2E1F0⟩

/-- Extend the 16 message words to the 80-word schedule. -/
def sha1Extend (w : Array Nat) : Array Nat :=
  (List.range 64).foldl
    (fun arr j =>
      arr.push (rotl32
        ((((arr.getD (j + 13) 0) ^^^ (arr.getD (j + 8) 0)) ^^^
          (arr.getD (j + 2) 0)) ^^^ (arr.getD j 0)) 1))
    w

/-- The SHA-1 round function. -/
def sha1F (i b c d : Nat) : Nat :=
  if i < 20 then (b &&& c) ||| ((b ^^^ 0xFFFFFFFF) &&& d)
  else if i < 40 then (b ^^^ c) ^^^ d
  else if i < 60 then ((b &&& c) ||| (b &&& d)) ||| (c &&& d)
  else (b ^^^ c) ^^^ d

/-- The SHA-1 round constants. -/
def sha1K (i : Nat) : Nat :=
  if i < 20 then 0x5A827999
  else if i < 40 then 0x6ED9EBA1
  else if i < 60 then 0x8F1BBCDC
  else 0xCA62C1D6

/-- Process one 64-byte block. -/
def sha1Block (st : SHA1State) (block : List Nat) : SHA1State :=
  let w := sha1Extend (Array.mk (toWordsBE block))
  let r := (List.range 80).foldl
    (fun (t : Nat × Nat × Nat × Nat × Nat) i =>
      let temp := (rotl32 t.1 5 + sha1F i t.2.1 t.2.2.1 t.2.2.2.1 +
        t.2.2.2.2 + sha1K i + w.getD i 0) % 4294967296
      (temp, t.1, rotl32 t.2.1 30, t.2.2.1, t.2.2.2.1))
    (st.h0, st.h1, st.h2, st.h3, st.h4)
  ⟨(st.h0 + r.1) % 4294967296,
   (st.h1 + r.2.1) % 4294967296,
   (st.h2 + r.2.2.1) % 4294967296,
   (st.h3 + r.2.2.2.1) % 4294967296,
   (st.h4 + r.2.2.2.2) % 4294967296⟩

/-- SHA-1 digest of a byte list (20 bytes). -/
def sha1 (msg : List Nat) : List Nat :=
  let final := (sliceBatches 64 (sha1Pad msg)).foldl sha1Block sha1Init
  bytesBE 4 final.h0 ++ bytesBE 4 final.h1 ++ bytesBE 4 final.h2
    ++ bytesBE 4 final.h3 ++ bytesBE 4 final.h4

/-- UTF-8 encoding of one character. -/
def utf8EncodeChar (c : Char) : List Nat :=
  let n := c.toNat
  if n < 128 then [n]
  else if n < 2048 then [192 ||| (n >>> 6), 128 ||| (n &&& 63)]
  else if n < 65536 then
    [224 ||| (n >>> 12), 128 ||| ((n >>> 6) &&& 63), 128 ||| (n &&& 63)]
  else
    [240 ||| (n >>> 18), 128 ||| ((n >>> 12) &&& 63),
      128 ||| ((n >>> 6) &&& 63), 128 ||| (n &&& 63)]

/-- UTF-8 encoding of a string (Python's `str.encode("utf-8")`). -/
def utf8Encode (s : String) : List Nat :=
  (s.data.map utf8EncodeChar).flatten

/-- Lowercase hex digit for a value below 16. -/
def hexDigit (n : Nat) : Char :=
  if n < 10 then Char.ofNat (48 + n) else Char.ofNat (87 + n)

/-- Two-digit lowercase hex of a byte. -/
def byteToHex (b : Nat) : String :=
  String.mk [hexDigit (b / 16), hexDigit (b % 16)]

/-- Lowercase hex of a byte list. -/
def bytesToHex (l : List Nat) : String :=
  String.join (l.map byteToHex)

/-- Canonical 8-4-4-4-12 UUID string of 16 bytes (Python's
`str(uuid.UUID(...))`). -/
def formatUUIDBytes (b : List Nat) : String :=
  bytesToHex (b.take 4) ++ "-" ++ bytesToHex ((b.drop 4).take 2) ++ "-"
    ++ bytesToHex ((b.drop 6).take 2) ++ "-"
    ++ bytesToHex ((b.drop 8).take 2) ++ "-" ++ bytesToHex (b.drop 10)

/-- UUID version 5 bytes per RFC 4122: the first 16 bytes of
`sha1(namespace ++ name)` with the version nibble set to 5 and the
variant bits set to 10. -/
def uuid5Bytes (ns name : List Nat) : List Nat :=
  let digest := (sha1 (ns ++ name)).take 16
  let b6 := digest.getD 6 0
  let b8 := digest.getD 8 0
  (digest.set 6 ((b6 &&& 15) ||| 80)).set 8 ((b8 &&& 63) ||| 128)

/-- `uuid.uuid5(namespace, name)` as a string, the name UTF-8
encoded. -/
def uuid5 (ns : List Nat) (name : String) : String :=
  formatUUIDBytes (uuid5Bytes ns (utf8Encode name))

/-- Value of a hex digit character. -/
def hexVal (c : Char) : Nat :=
  if 48 ≤ c.toNat ∧ c.toNat ≤ 57 then c.toNat - 48
  else if 97 ≤ c.toNat ∧ c.toNat ≤ 102 then c.toNat - 87
  else if 65 ≤ c.toNat ∧ c.toNat ≤ 70 then c.toNat - 55
  else 0

/-- Bytes from a list of hex digit pairs. -/
def hexPairsToBytes : List Char → List Nat
  | c1 :: c2 :: rest => (hexVal c1 * 16 + hexVal c2) :: hexPairsToBytes rest
  | _ => []

/-- The 16 bytes denoted by a hyphenated UUID string (Python's
`uuid.UUID(...)` constructor on a string). -/
def uuidStringBytes (s : String) : List Nat :=
  hexPairsToBytes (s.data.filter (fun c => ¬(c = '-')))

/-- The fixed namespace constant of `_generate_chunk_id`:
`uuid.UUID("6ba7b810-9dad-11d1-80b4-00c04fd430c8")`. -/
def UUID_NAMESPACE : List Nat :=
  uuidStringBytes "6ba7b810-9dad-11d1-80b4-00c04fd430c8"

/-- `ContentChunker._generate_chunk_id`: the UUID v5 of
`f"{chapter_id}:{section_title}:{position}"` under the fixed
namespace. -/
def generateChunkId (chapter_id section_title : String)
    (position : Nat) : String :=
  uuid5 UUID_NAMESPACE
    (chapter_id ++ ":" ++ section_title ++ ":" ++ toString position)

set_option maxRecDepth 10000 in
/-- Sanity: SHA-1 of the empty message (FIPS 180 test vector). -/
theorem sha1_empty_vector :
    bytesToHex (sha1 []) = "da39a3ee5e6b4b0d3255bfef95601890afd80709" := by
  decide

set_option maxRecDepth 10000 in
/-- Sanity: the RFC 4122 / Python documentation example
`uuid5(NAMESPACE_DNS, "python.org")`; the namespace constant used by the
source is exactly `NAMESPACE_DNS`. -/
theorem uuid5_python_org_vector :
    uuid5 UUID_NAMESPACE "python.org" =
      "886313e1-3b8a-5372-9b90-0c9aee199e5d" := by
  decide

/-! ### Content chunker (content_parser.py) -/

/-- Python's whitespace class `\s` over the ASCII range
(space, tab, newline, carriage return, vertical tab, form feed). -/
def pyIsSpace (c : Char) : Bool :=
  c = ' ' ∨ c = '\t' ∨ c = '\n' ∨ c = '\r' ∨
    c = Char.ofNat 11 ∨ c = Char.ofNat 12

/-- Python's `str.strip()` (over the ASCII whitespace class). -/
def pyStrip (s : String) : String :=
  String.mk (((s.data.dropWhile pyIsSpace).reverse.dropWhile pyIsSpace).reverse)

/-- Chunker configuration: the constructor arguments `chunk_size`,
`chunk_overlap` and `min_chunk_size` of `ContentChunker`. -/
structure ContentChunker where
  chunk_size : Nat
  chunk_overlap : Nat
  min_chunk_size : Nat
deriving DecidableEq

/-- The class defaults `chunk_size=500, chunk_overlap=50,
min_chunk_size=100`. -/
def ContentChunker.default : ContentChunker := ⟨500, 50, 100⟩

/-- `re.split(r"\n\n+", text)`: split at each maximal run of two or
more newlines, walking the characters with the current piece
accumulated in reverse. -/
def splitParasAux : List Char → List Char → List String
  | [], acc => [String.mk acc.reverse]
  | c :: rest, acc =>
      if c = '\n' ∧ rest.head? = some '\n' then
        String.mk acc.reverse ::
          splitParasAux (rest.dropWhile (fun d => d = '\n')) []
      else splitParasAux rest (c :: acc)
termination_by l _ => l.length
decreasing_by
  · simp only [List.length_cons]
    exact Nat.lt_succ_of_le (List.dropWhile_sublist _).length_le
  · simp [Nat.lt_succ_self]

/-- Paragraph splitting of `_split_text`. -/
def splitParagraphs (s : String) : List String :=
  splitParasAux s.data []

/-- Whether the last character consumed (head of the reversed
accumulator) is a sentence-ending `.`, `!` or `?` — the regex
lookbehind `(?<=[.!?])`. -/
def prevSentenceEnd (acc : List Char) : Bool :=
  match acc.head? with
  | some p => p = '.' ∨ p = '!' ∨ p = '?'
  | none => false

/-- `re.split(r"(?<=[.!?])\s+", paragraph)`: split at each maximal
whitespace run whose preceding character is `.`, `!` or `?`. The head
of the reversed accumulator is the previous character. -/
def splitSentencesAux : List Char → List Char → List String
  | [], acc => [String.mk acc.reverse]
  | c :: rest, acc =>
      if pyIsSpace c && prevSentenceEnd acc then
        String.mk acc.reverse ::
          splitSentencesAux (rest.dropWhile pyIsSpace) []
      else splitSentencesAux rest (c :: acc)
termination_by l _ => l.length
decreasing_by
  · simp only [List.length_cons]
    exact Nat.lt_succ_of_le (List.dropWhile_sublist _).length_le
  · simp [Nat.lt_succ_self]

/-- Sentence splitting of `_split_large_paragraph`. -/
def splitSentences (s : String) : List String :=
  splitSentencesAux s.data []

/-- The loop of `ContentChunker._split_large_paragraph`: greedily pack
stripped sentences; when the next sentence would push the running
estimate over `chunk_size` and the current chunk is non-empty, emit it
(space-joined) and restart from that sentence (no overlap seeding). -/
def splitLargeLoop (cfg : ContentChunker) :
    List String → List String → Nat → List String
  | [], cur, _ => if cur = [] then [] else [String.intercalate " " cur]
  | s :: rest, cur, size =>
      let t := pyStrip s
      if t = "" then splitLargeLoop cfg rest cur size
      else
        let tk := estimateTokens t
        if cfg.chunk_size < size + tk ∧ cur ≠ [] then
          String.intercalate " " cur :: splitLargeLoop cfg rest [t] tk
        else splitLargeLoop cfg rest (cur ++ [t]) (size + tk)

/-- `ContentChunker._split_large_paragraph`. -/
def splitLargeParagraph (cfg : ContentChunker) (p : String) : List String :=
  splitLargeLoop cfg (splitSentences p) [] 0

/-- The overlap seeding of `_split_text`: walk the emitted chunk's
paragraphs from the end, collecting them (at the front) while the
accumulated estimate stays within `chunk_overlap`; stop at the first
that does not fit. -/
def overlapLoop (cfg : ContentChunker) :
    List String → List String → Nat → List String × Nat
  | [], acc, size => (acc, size)
  | p :: rest, acc, size =>
      let ps := estimateTokens p
      if size + ps ≤ cfg.chunk_overlap then
        overlapLoop cfg rest (p :: acc) (size + ps)
      else (acc, size)

/-- The overlap window kept when a chunk is emitted in `_split_text`. -/
def overlapOf (cfg : ContentChunker) (cur : List String) :
    List String × Nat :=
  overlapLoop cfg cur.reverse [] 0

/-- The paragraph loop of `ContentChunker._split_text`: skip blank
paragraphs; a paragraph alone exceeding `chunk_size` flushes the current
chunk and is sentence-split; otherwise greedy accumulation with overlap
seeding on emission. -/
def splitTextLoop (cfg : ContentChunker) :
    List String → List String → Nat → List String
  | [], cur, _ => if cur = [] then [] else [String.intercalate "\n\n" cur]
  | para :: rest, cur, size =>
      let p := pyStrip para
      if p = "" then splitTextLoop cfg rest cur size
      else
        let ptoks := estimateTokens p
        if cfg.chunk_size < ptoks then
          (if cur = [] then ([] : List String)
            else [String.intercalate "\n\n" cur])
            ++ splitLargeParagraph cfg p ++ splitTextLoop cfg rest [] 0
        else if cfg.chunk_size < size + ptoks ∧ cur ≠ [] then
          String.intercalate "\n\n" cur ::
            splitTextLoop cfg rest ((overlapOf cfg cur).1 ++ [p])
              ((overlapOf cfg cur).2 + ptoks)
        else splitTextLoop cfg rest (cur ++ [p]) (size + ptoks)

/-- `ContentChunker._split_text`: nothing for blank text, else the
paragraph loop over the blank-line split. -/
def splitText (cfg : ContentChunker) (text : String) : List String :=
  if pyStrip text = "" then []
  else splitTextLoop cfg (splitParagraphs text) [] 0

/-- Parsed content (`ParsedContent` in `content_parser.py`): sections
are (heading, body) pairs. -/
structure ParsedContent where
  raw_content : String
  text_content : String
  metadata : ContentMetadata
  sections : List (String × String)
deriving DecidableEq

/-- The per-section metadata built inside `chunk_content`: the parsed
metadata with `section_title` replaced. -/
def sectionMetadataOf (m : ContentMetadata) (section_title : String) :
    ContentMetadata :=
  { chapter_id := m.chapter_id
    title := m.title
    section_title := section_title
    page_url := m.page_url
    sidebar_position := m.sidebar_position }

/-- The inner loop of `chunk_content` over one section's split chunks:
chunks whose estimate is below `min_chunk_size` are dropped (without
consuming a position); each emitted chunk gets the deterministic
UUID v5 id over `(chapter_id, section_title, position)` and the
position counter advances. Returns the chunks and the final counter. -/
def chunkPieces (cfg : ContentChunker) (chapter_id : String)
    (sectionMeta : ContentMetadata) (section_title : String) :
    List String → Nat → List ContentChunk × Nat
  | [], pos => ([], pos)
  | t :: rest, pos =>
      let token_count := estimateTokens t
      if token_count < cfg.min_chunk_size then
        chunkPieces cfg chapter_id sectionMeta section_title rest pos
      else
        let r := chunkPieces cfg chapter_id sectionMeta section_title rest
          (pos + 1)
        ({ id := generateChunkId chapter_id section_title pos
           content := t
           metadata := sectionMeta
           position := pos
           token_count := token_count } :: r.1, r.2)

/-- The section loop of `chunk_content`: the position counter is
chapter-scoped and monotonic across sections. -/
def chunkSections (cfg : ContentChunker) (meta : ContentMetadata) :
    List (String × String) → Nat → List ContentChunk
  | [], _ => []
  | (section_title, section_content) :: rest, pos =>
      let r := chunkPieces cfg meta.chapter_id
        (sectionMetadataOf meta section_title) section_title
        (splitText cfg section_content) pos
      r.1 ++ chunkSections cfg meta rest r.2

/-- `ContentChunker.chunk_content`. -/
def chunk_content (cfg : ContentChunker) (pc : ParsedContent) :
    List ContentChunk :=
  chunkSections cfg pc.metadata pc.sections 0

/-- C3: for every `(chapter_id, section_title, position)` triple, the
generated chunk id is the name-based UUID v5 of
`"{chapter_id}:{section_title}:{position}"` under the fixed namespace
whose bytes are `6ba7b810-9dad-11d1-80b4-00c04fd430c8`; consequently
two runs of `chunk_content` on the same `ParsedContent` produce
chunk-for-chunk identical id sequences. -/
theorem c3_chunk_id_deterministic (chapter_id section_title : String)
    (position : Nat) (cfg : ContentChunker) (pc : ParsedContent) :
    generateChunkId chapter_id section_title position =
      formatUUIDBytes (uuid5Bytes
        [107, 167, 184, 16, 157, 173, 17, 209,
          128, 180, 0, 192, 79, 212, 48, 200]
        (utf8Encode
          (chapter_id ++ ":" ++ section_title ++ ":" ++ toString position))) ∧
    (chunk_content cfg pc).map ContentChunk.id =
      (chunk_content cfg pc).map ContentChunk.id := by
  constructor
  · have hns : UUID_NAMESPACE =
        [107, 167, 184, 16, 157, 173, 17, 209,
          128, 180, 0, 192, 79, 212, 48, 200] := by decide
    rw [generateChunkId, uuid5, hns]
  · rfl
